import Mathlib

/-!
Verification of the DriveLedger dealership ledger (src/main.py).

A shallow embedding of the in-memory entity store and its operations:
Python floats are modelled as rationals, the ambient clock
(datetime.utcnow) is threaded as an explicit argument, and the Streamlit
session state becomes an explicit StoreState record.
-/

/-- Embedding of Python str.strip(): drop leading and trailing whitespace.
Python whitespace for strip is space, tab, newline, carriage return,
vertical tab and form feed. -/
def isPySpace (c : Char) : Bool :=
  c = ' ' || c = '\t' || c = '\n' || c = '\r' || c = '\x0b' || c = '\x0c'

def pyStrip (s : String) : String :=
  String.mk (((s.toList.dropWhile isPySpace).reverse.dropWhile isPySpace).reverse)

/-- Vehicle record (src/main.py dataclass Vehicle). -/
structure Vehicle where
  id : Nat
  brand : String
  model : String
  year : Int
  purchase_price : ℚ
  expected_sell_price : ℚ
  date_added : String
deriving DecidableEq

/-- Sale record (src/main.py dataclass SaleRecord). -/
structure SaleRecord where
  sale_id : Nat
  vehicle_id : Nat
  customer_name : String
  sale_price : ℚ
  date : String
deriving DecidableEq

/-- Expense record (src/main.py dataclass ExpenseRecord). -/
structure ExpenseRecord where
  expense_id : Nat
  description : String
  amount : ℚ
  date : String
deriving DecidableEq

/-- Purchase-history entry: the dict \x7bamount, date\x7d appended by add_vehicle. -/
structure PurchaseEvent where
  amount : ℚ
  date : String
deriving DecidableEq

/-- The Streamlit session state fields used by the core
(init_state, src/main.py lines 106-123). -/
structure StoreState where
  inventory : List Vehicle
  sales : List SaleRecord
  expenses : List ExpenseRecord
  purchase_history : List PurchaseEvent
  next_vehicle_id : Nat
  next_sale_id : Nat
  next_expense_id : Nat
  cumulative_purchase_cost : ℚ
deriving DecidableEq

/-- init_state: empty collections, counters at 1, cumulative cost 0. -/
def init_state : StoreState :=
  { inventory := []
    sales := []
    expenses := []
    purchase_history := []
    next_vehicle_id := 1
    next_sale_id := 1
    next_expense_id := 1
    cumulative_purchase_cost := 0 }

/-- add_vehicle (src/main.py lines 147-156): assign the next vehicle id,
strip the text fields, insert at the head of the inventory, bump the
counter, accumulate the purchase cost and append a purchase-history
entry.  The timestamp datetime.utcnow().isoformat() is the argument
date_added. -/
def add_vehicle (s : StoreState) (brand model : String) (year : Int)
    (purchase_price expected_sell_price : ℚ) (date_added : String) : StoreState :=
  let v : Vehicle :=
    { id := s.next_vehicle_id
      brand := pyStrip brand
      model := pyStrip model
      year := year
      purchase_price := purchase_price
      expected_sell_price := expected_sell_price
      date_added := date_added }
  { s with
    inventory := v :: s.inventory
    next_vehicle_id := s.next_vehicle_id + 1
    cumulative_purchase_cost := s.cumulative_purchase_cost + purchase_price
    purchase_history := s.purchase_history ++ [{ amount := purchase_price, date := date_added }] }

/-- find_vehicle_by_id (src/main.py lines 158-162): first inventory entry
with the given id, if any. -/
def find_vehicle_by_id (s : StoreState) (vid : Nat) : Option Vehicle :=
  s.inventory.find? (fun v => v.id = vid)

/-- Helper for remove_vehicle_by_id: remove the first vehicle with the
given id, reporting whether one was found. -/
def removeFirst : List Vehicle → Nat → List Vehicle × Bool
  | [], _ => ([], false)
  | v :: rest, vid =>
    if v.id = vid then (rest, true)
    else
      let r := removeFirst rest vid
      (v :: r.1, r.2)

/-- remove_vehicle_by_id (src/main.py lines 164-169): pop the first
matching vehicle, return whether one was found. -/
def remove_vehicle_by_id (s : StoreState) (vid : Nat) : StoreState × Bool :=
  let r := removeFirst s.inventory vid
  ({ s with inventory := r.1 }, r.2)

/-- Outcome reported by sell_vehicle: st.error on an unknown id,
st.success on a completed sale, st.error again when the removal step
reports failure after the sale was appended. -/
inductive SellResult where
  | notFound : SellResult
  | sold : Nat → SellResult
  | removalFailed : SellResult
deriving DecidableEq

/-- The tail of sell_vehicle after the sale record has been appended
(src/main.py lines 179-184): attempt the removal; on success bump
next_sale_id, otherwise report the failure with st.error, leaving the
appended sale in place and the counter untouched. -/
def sell_vehicle_after_commit (s1 : StoreState) (vid sale_id : Nat) : StoreState × SellResult :=
  let r := remove_vehicle_by_id s1 vid
  if r.2 then
    ({ r.1 with next_sale_id := r.1.next_sale_id + 1 }, SellResult.sold sale_id)
  else
    (s1, SellResult.removalFailed)

/-- sell_vehicle (src/main.py lines 171-184): look the vehicle up; if
absent report notFound with no state change; otherwise append the sale
record (stripping the customer name, stamping the clock argument) and
run the removal step. -/
def sell_vehicle (s : StoreState) (vid : Nat) (customer_name : String)
    (sale_price : ℚ) (date : String) : StoreState × SellResult :=
  match find_vehicle_by_id s vid with
  | none => (s, SellResult.notFound)
  | some _ =>
    let sale_id := s.next_sale_id
    let r : SaleRecord :=
      { sale_id := sale_id
        vehicle_id := vid
        customer_name := pyStrip customer_name
        sale_price := sale_price
        date := date }
    let s1 := { s with sales := s.sales ++ [r] }
    sell_vehicle_after_commit s1 vid sale_id

/-- add_expense (src/main.py lines 186-192): append the stripped record
and bump next_expense_id.  (The shadow total_other_expenses accumulator
written on line 190 is read by nothing and is not part of the model.) -/
def add_expense (s : StoreState) (description : String) (amount : ℚ)
    (date : String) : StoreState :=
  { s with
    expenses := s.expenses ++ [{ expense_id := s.next_expense_id
                                 description := pyStrip description
                                 amount := amount
                                 date := date }]
    next_expense_id := s.next_expense_id + 1 }

/-- Digit value of a character. -/
def digitVal (c : Char) : Nat := c.toNat - 48

/-- Year and month extracted from an ISO-8601 string, none when parsing
fails (embedding of datetime.fromisoformat as used by
month_key_from_iso): a YYYY-MM-DD prefix with digit fields and months
1-12, days 1-31, either ending the string or followed by a time part. -/
def parseYearMonth (str : String) : Option (Int × Nat) :=
  match str.toList with
  | y1 :: y2 :: y3 :: y4 :: c1 :: m1 :: m2 :: c2 :: d1 :: d2 :: _ =>
    if y1.isDigit && y2.isDigit && y3.isDigit && y4.isDigit &&
       c1 = '-' && c2 = '-' && m1.isDigit && m2.isDigit &&
       d1.isDigit && d2.isDigit then
      if 1 ≤ digitVal m1 * 10 + digitVal m2 ∧ digitVal m1 * 10 + digitVal m2 ≤ 12 ∧
         1 ≤ digitVal d1 * 10 + digitVal d2 ∧ digitVal d1 * 10 + digitVal d2 ≤ 31 then
        some (Int.ofNat (digitVal y1 * 1000 + digitVal y2 * 100 + digitVal y3 * 10 + digitVal y4),
          digitVal m1 * 10 + digitVal m2)
      else none
    else none
  | _ => none

/-- month_key_from_iso (src/main.py lines 197-203): year and month of the
timestamp; on a parse failure the current time is substituted, so the
ambient clock value now is an explicit argument. -/
def month_key_from_iso (now : Int × Nat) (iso_dt : String) : Int × Nat :=
  match parseYearMonth iso_dt with
  | some ym => ym
  | none => now

/-- In-place update debit_month[m-1] += x on a 12-bucket list (0-based
index here). -/
def bump : List ℚ → Nat → ℚ → List ℚ
  | [], _, _ => []
  | a :: rest, 0, x => (a + x) :: rest
  | a :: rest, i + 1, x => a :: bump rest i x

/-- One aggregation loop of monthly_aggregation_for_year: for each record
whose bucketed year matches, add its value into the month bucket. -/
def bucketFold {α : Type} (key : α → Int × Nat) (val : α → ℚ) (year : Int)
    (acc : List ℚ) (rs : List α) : List ℚ :=
  rs.foldl (fun a r => if (key r).1 = year then bump a ((key r).2 - 1) (val r) else a) acc

/-- monthly_aggregation_for_year (src/main.py lines 205-228): start from
two zero-filled 12-element lists; credit sales, debit expenses and
purchase-history entries, bucketed by month_key_from_iso. -/
def monthly_aggregation_for_year (s : StoreState) (now : Int × Nat) (year : Int) :
    List ℚ × List ℚ :=
  let debit0 : List ℚ := List.replicate 12 0
  let credit0 : List ℚ := List.replicate 12 0
  let credit := bucketFold (fun sl => month_key_from_iso now sl.date)
    (fun sl => sl.sale_price) year credit0 s.sales
  let debit1 := bucketFold (fun e => month_key_from_iso now e.date)
    (fun e => e.amount) year debit0 s.expenses
  let debit := bucketFold (fun p => month_key_from_iso now p.date)
    (fun p => p.amount) year debit1 s.purchase_history
  (debit, credit)

/-- totals_from_monthly (src/main.py lines 230-233). -/
def totals_from_monthly (debit_month credit_month : List ℚ) : ℚ × ℚ :=
  (debit_month.sum, credit_month.sum)

/-- adjusted_balance as computed on src/main.py line 271. -/
def adjusted_balance (starting_balance total_debit total_credit : ℚ) : ℚ :=
  starting_balance + (total_credit - total_debit)

/-- Net profit of page_financial_summary (src/main.py lines 452-455):
all-time sale revenue minus cumulative purchase cost plus all-time
expense total, with no year scoping. -/
def net_profit (s : StoreState) : ℚ :=
  (s.sales.map (fun sl => sl.sale_price)).sum
    - (s.cumulative_purchase_cost + (s.expenses.map (fun e => e.amount)).sum)

/-- Status string of page_financial_summary (src/main.py lines 463-468). -/
def profit_status (s : StoreState) : String :=
  if net_profit s > 0 then "PROFIT"
  else if net_profit s < 0 then "LOSS"
  else "BREAK-EVEN"

/-- page_add_vehicle submit handler (src/main.py lines 382-386): Python
rejects with st.error when brand or model is falsy, that is when the raw
string is empty; otherwise it calls add_vehicle. -/
def page_add_vehicle_submit (s : StoreState) (brand model : String) (year : Int)
    (purchase_price expected_sell_price : ℚ) (date_added : String) : StoreState :=
  if brand = "" ∨ model = "" then s
  else add_vehicle s brand model year purchase_price expected_sell_price date_added

/-- page_sell_vehicle submit handler (src/main.py lines 414-418): rejects
an empty raw customer string, otherwise calls sell_vehicle. -/
def page_sell_vehicle_submit (s : StoreState) (vid : Nat) (customer : String)
    (sale_price : ℚ) (date : String) : StoreState :=
  if customer = "" then s
  else (sell_vehicle s vid customer sale_price date).1

/-- page_expenses submit handler (src/main.py lines 436-440): rejects an
empty raw description, otherwise calls add_expense. -/
def page_expenses_submit (s : StoreState) (description : String) (amount : ℚ)
    (date : String) : StoreState :=
  if description = "" then s
  else add_expense s description amount date

/-- The three mutating operations of the inventory manager, each carrying
the clock value it stamps. -/
inductive Op where
  | addVehicle : String → String → Int → ℚ → ℚ → String → Op
  | sellVehicle : Nat → String → ℚ → String → Op
  | addExpense : String → ℚ → String → Op

/-- One mutating step on the store. -/
def step (s : StoreState) : Op → StoreState
  | Op.addVehicle b m y pp esp d => add_vehicle s b m y pp esp d
  | Op.sellVehicle vid c p d => (sell_vehicle s vid c p d).1
  | Op.addExpense desc a d => add_expense s desc a d

/-- Run a sequence of operations. -/
def run (s : StoreState) : List Op → StoreState
  | [] => s
  | op :: ops => run (step s op) ops

/-- A store state reachable from init_state by some operation sequence. -/
def Reachable (s : StoreState) : Prop :=
  ∃ ops : List Op, run init_state ops = s

/-- The vehicle identifiers handed out along a trace, in order: each
addVehicle step assigns the current next_vehicle_id. -/
def traceVehicleIds (s : StoreState) : List Op → List Nat
  | [] => []
  | op :: ops =>
    match op with
    | Op.addVehicle _ _ _ _ _ _ => s.next_vehicle_id :: traceVehicleIds (step s op) ops
    | _ => traceVehicleIds (step s op) ops

/-- The spec section 8 scenario: add a Toyota Corolla for 10000, sell it
for 11000, record a 150 expense. -/
def scenarioState : StoreState :=
  add_expense
    ((sell_vehicle
        (add_vehicle init_state "Toyota" "Corolla" 2020 10000 12000 "2025-01-01T00:00:00")
        1 "Alice" 11000 "2025-01-02T00:00:00").1)
    "Detailing" 150 "2025-01-03T00:00:00"

/-! ### Lemmas about the monthly bucketing -/

lemma bump_length (acc : List ℚ) (i : Nat) (x : ℚ) : (bump acc i x).length = acc.length := by
  induction acc generalizing i with
  | nil => simp [bump]
  | cons a rest ih =>
    cases i with
    | zero => simp [bump]
    | succ j => simp [bump, ih]

lemma bump_getD_eq (acc : List ℚ) (i : Nat) (x : ℚ) (h : i < acc.length) :
    (bump acc i x).getD i 0 = acc.getD i 0 + x := by
  induction acc generalizing i with
  | nil => simp at h
  | cons a rest ih =>
    cases i with
    | zero => simp [bump]
    | succ j =>
      have := ih j (by simpa using h)
      simpa [bump] using this

lemma bump_getD_ne (acc : List ℚ) (i j : Nat) (x : ℚ) (h : i ≠ j) :
    (bump acc i x).getD j 0 = acc.getD j 0 := by
  induction acc generalizing i j with
  | nil => simp [bump]
  | cons a rest ih =>
    cases i with
    | zero =>
      cases j with
      | zero => exact absurd rfl h
      | succ k => simp [bump]
    | succ i' =>
      cases j with
      | zero => simp [bump]
      | succ k =>
        have := ih i' k (by omega)
        simpa [bump] using this

lemma bucketFold_cons {α : Type} (key : α → Int × Nat) (val : α → ℚ) (year : Int)
    (acc : List ℚ) (r : α) (rs : List α) :
    bucketFold key val year acc (r :: rs)
      = bucketFold key val year
          (if (key r).1 = year then bump acc ((key r).2 - 1) (val r) else acc) rs := rfl

lemma bucketFold_length {α : Type} (key : α → Int × Nat) (val : α → ℚ) (year : Int)
    (acc : List ℚ) (rs : List α) :
    (bucketFold key val year acc rs).length = acc.length := by
  induction rs generalizing acc with
  | nil => rfl
  | cons r rest ih =>
    rw [bucketFold_cons, ih]
    by_cases h : (key r).1 = year
    · simp [h, bump_length]
    · simp [h]

lemma bucketFold_getD {α : Type} (key : α → Int × Nat) (val : α → ℚ) (year : Int)
    (rs : List α) (hkey : ∀ r ∈ rs, 1 ≤ (key r).2 ∧ (key r).2 ≤ 12)
    (acc : List ℚ) (hacc : acc.length = 12) (m : Nat) (hm : m < 12) :
    (bucketFold key val year acc rs).getD m 0
      = acc.getD m 0 + ((rs.filter (fun r => key r = (year, m + 1))).map val).sum := by
  induction rs generalizing acc with
  | nil => simp [bucketFold]
  | cons r rest ih =>
    have hr := hkey r (by simp)
    have hrest : ∀ x ∈ rest, 1 ≤ (key x).2 ∧ (key x).2 ≤ 12 :=
      fun x hx => hkey x (by simp [hx])
    rw [bucketFold_cons]
    by_cases hy : (key r).1 = year
    · rw [if_pos hy]
      have hlen : (bump acc ((key r).2 - 1) (val r)).length = 12 := by
        rw [bump_length, hacc]
      rw [ih hrest _ hlen]
      by_cases hm2 : (key r).2 = m + 1
      · have hkr : key r = (year, m + 1) := by
          rcases hky : key r with ⟨a, b⟩
          rw [hky] at hy hm2
          simp at hy hm2
          simp [hy, hm2]
        have hidx : (key r).2 - 1 = m := by omega
        rw [hidx, bump_getD_eq acc m (val r) (by omega)]
        rw [List.filter_cons]
        simp only [hkr]
        simp [List.sum_cons]
        ring
      · have hidx : (key r).2 - 1 ≠ m := by omega
        rw [bump_getD_ne acc _ m (val r) hidx]
        have hkr : ¬ (key r = (year, m + 1)) := by
          intro hc
          rw [hc] at hm2
          exact hm2 rfl
        rw [List.filter_cons]
        simp [hkr]
    · rw [if_neg hy]
      rw [ih hrest _ hacc]
      have hkr : ¬ (key r = (year, m + 1)) := by
        intro hc
        rw [hc] at hy
        exact hy rfl
      rw [List.filter_cons]
      simp [hkr]

lemma parseYearMonth_month_bounds (d : String) (y : Int) (m : Nat)
    (h : parseYearMonth d = some (y, m)) : 1 ≤ m ∧ m ≤ 12 := by
  unfold parseYearMonth at h
  split at h
  · split at h
    · split at h
      · rename_i hcond
        simp only [Option.some.injEq, Prod.mk.injEq] at h
        obtain ⟨-, hm⟩ := h
        subst hm
        exact ⟨hcond.1, hcond.2.1⟩
      · exact absurd h (by simp)
    · exact absurd h (by simp)
  · exact absurd h (by simp)

lemma replicate_getD_zero (n m : Nat) : (List.replicate n (0 : ℚ)).getD m 0 = 0 := by
  induction n generalizing m with
  | zero => simp [List.getD]
  | succ k ih =>
    cases m with
    | zero => simp [List.replicate]
    | succ j =>
      simp only [List.replicate]
      simp [List.getD]

lemma month_key_bounds (now : Int × Nat) (hnow : 1 ≤ now.2 ∧ now.2 ≤ 12) (d : String) :
    1 ≤ (month_key_from_iso now d).2 ∧ (month_key_from_iso now d).2 ≤ 12 := by
  unfold month_key_from_iso
  cases h : parseYearMonth d with
  | none => exact hnow
  | some ym =>
    rcases ym with ⟨y, m⟩
    exact parseYearMonth_month_bounds d y m h

lemma replicate_getD (m : Nat) : (List.replicate 12 (0 : ℚ)).getD m 0 = 0 :=
  replicate_getD_zero 12 m

/-- C1: monthly_aggregation_for_year returns two 12-element zero-based
arrays; the credit bucket for month m+1 is the sum of sale prices of the
sales bucketed (by month_key_from_iso, including its current-time
fallback) into (year, m+1), and the debit bucket is the corresponding sum
of expense amounts plus purchase-event amounts; buckets with no events
stay at their initial 0. -/
theorem monthly_aggregation_buckets (s : StoreState) (now : Int × Nat) (year : Int) (m : Nat)
    (hnow : 1 ≤ now.2 ∧ now.2 ≤ 12) (hm : m < 12) :
    (monthly_aggregation_for_year s now year).1.length = 12 ∧
    (monthly_aggregation_for_year s now year).2.length = 12 ∧
    (monthly_aggregation_for_year s now year).2.getD m 0
      = ((s.sales.filter (fun sl => month_key_from_iso now sl.date = (year, m + 1))).map
          (fun sl => sl.sale_price)).sum ∧
    (monthly_aggregation_for_year s now year).1.getD m 0
      = ((s.expenses.filter (fun e => month_key_from_iso now e.date = (year, m + 1))).map
          (fun e => e.amount)).sum
        + ((s.purchase_history.filter (fun p => month_key_from_iso now p.date = (year, m + 1))).map
            (fun p => p.amount)).sum := by
  have hrep : (List.replicate 12 (0 : ℚ)).length = 12 := by simp
  refine ⟨?_, ?_, ?_, ?_⟩
  · show (bucketFold _ _ year (bucketFold _ _ year (List.replicate 12 0) s.expenses)
        s.purchase_history).length = 12
    rw [bucketFold_length, bucketFold_length, hrep]
  · show (bucketFold _ _ year (List.replicate 12 0) s.sales).length = 12
    rw [bucketFold_length, hrep]
  · show (bucketFold (fun sl => month_key_from_iso now sl.date) (fun sl => sl.sale_price)
        year (List.replicate 12 0) s.sales).getD m 0 = _
    rw [bucketFold_getD _ _ _ _ (fun r _ => month_key_bounds now hnow r.date) _ hrep m hm]
    rw [replicate_getD]
    ring
  · show (bucketFold (fun p => month_key_from_iso now p.date) (fun p => p.amount) year
        (bucketFold (fun e => month_key_from_iso now e.date) (fun e => e.amount) year
          (List.replicate 12 0) s.expenses) s.purchase_history).getD m 0 = _
    have hlen2 : (bucketFold (fun e => month_key_from_iso now e.date) (fun e => e.amount) year
        (List.replicate 12 0) s.expenses).length = 12 := by
      rw [bucketFold_length, hrep]
    rw [bucketFold_getD _ _ _ _ (fun r _ => month_key_bounds now hnow r.date) _ hlen2 m hm]
    rw [bucketFold_getD _ _ _ _ (fun r _ => month_key_bounds now hnow r.date) _ hrep m hm]
    rw [replicate_getD]
    ring

/-- A small concrete store used by witnesses: one sale, one expense and
one purchase event, all in March 2024. -/
def wState : StoreState :=
  { inventory := []
    sales := [{ sale_id := 1, vehicle_id := 1, customer_name := "A", sale_price := 7,
                date := "2024-03-05T00:00:00" }]
    expenses := [{ expense_id := 1, description := "d", amount := 2,
                   date := "2024-03-06T00:00:00" }]
    purchase_history := [{ amount := 5, date := "2024-03-01T00:00:00" }]
    next_vehicle_id := 2
    next_sale_id := 2
    next_expense_id := 2
    cumulative_purchase_cost := 5 }

def wNow : Int × Nat := (2024, 1)

/-- Witness for C1 at the concrete store wState, month bucket 2 (March). -/
theorem monthly_aggregation_buckets_witness :
    (1 ≤ wNow.2 ∧ wNow.2 ≤ 12) ∧ 2 < 12 ∧
    ((monthly_aggregation_for_year wState wNow 2024).1.length = 12 ∧
    (monthly_aggregation_for_year wState wNow 2024).2.length = 12 ∧
    (monthly_aggregation_for_year wState wNow 2024).2.getD 2 0
      = ((wState.sales.filter (fun sl => month_key_from_iso wNow sl.date = (2024, 2 + 1))).map
          (fun sl => sl.sale_price)).sum ∧
    (monthly_aggregation_for_year wState wNow 2024).1.getD 2 0
      = ((wState.expenses.filter (fun e => month_key_from_iso wNow e.date = (2024, 2 + 1))).map
          (fun e => e.amount)).sum
        + ((wState.purchase_history.filter (fun p => month_key_from_iso wNow p.date = (2024, 2 + 1))).map
            (fun p => p.amount)).sum) :=
  ⟨⟨by decide, by decide⟩, by decide,
    monthly_aggregation_buckets wState wNow 2024 2 ⟨by decide, by decide⟩ (by decide)⟩

/-! ### Financial summary -/

lemma profit_status_cases (s : StoreState) :
    (profit_status s = "PROFIT" ↔ 0 < net_profit s) ∧
    (profit_status s = "LOSS" ↔ net_profit s < 0) ∧
    (profit_status s = "BREAK-EVEN" ↔ net_profit s = 0) := by
  unfold profit_status
  rcases lt_trichotomy (net_profit s) 0 with h | h | h
  · rw [if_neg (not_lt.mpr (le_of_lt h)), if_pos h]
    refine ⟨?_, ?_, ?_⟩
    · constructor
      · intro hc
        exact absurd hc (by decide)
      · intro hc
        exact absurd hc (not_lt.mpr (le_of_lt h))
    · simp [h]
    · constructor
      · intro hc
        exact absurd hc (by decide)
      · intro hc
        rw [hc] at h
        exact absurd h (by norm_num)
  · rw [h]
    norm_num
    refine ⟨by decide, by decide⟩
  · rw [if_pos h]
    refine ⟨?_, ?_, ?_⟩
    · simp [h]
    · constructor
      · intro hc
        exact absurd hc (by decide)
      · intro hc
        exact absurd hc (not_lt.mpr (le_of_lt h))
    · constructor
      · intro hc
        exact absurd hc (by decide)
      · intro hc
        rw [hc] at h
        exact absurd h (by norm_num)

lemma net_profit_scenario : net_profit scenarioState = 850 := by
  norm_num [net_profit, scenarioState, add_expense, sell_vehicle, find_vehicle_by_id,
    List.find?, add_vehicle, init_state, sell_vehicle_after_commit, remove_vehicle_by_id,
    removeFirst]

/-- C2: the financial summary computes net profit as all-time sale revenue
minus cumulative purchase cost plus all-time expense total, with no year
scoping, and classifies it by exact sign; the spec scenario (10000
purchase, 11000 sale, 150 expense) yields 850 and PROFIT. -/
theorem financial_summary_sign_classification (s : StoreState) :
    net_profit s = (s.sales.map (fun sl => sl.sale_price)).sum
        - (s.cumulative_purchase_cost + (s.expenses.map (fun e => e.amount)).sum) ∧
    (profit_status s = "PROFIT" ↔ 0 < net_profit s) ∧
    (profit_status s = "LOSS" ↔ net_profit s < 0) ∧
    (profit_status s = "BREAK-EVEN" ↔ net_profit s = 0) ∧
    net_profit scenarioState = 850 ∧
    profit_status scenarioState = "PROFIT" := by
  obtain ⟨h1, h2, h3⟩ := profit_status_cases s
  refine ⟨rfl, h1, h2, h3, net_profit_scenario, ?_⟩
  exact (profit_status_cases scenarioState).1.mpr (by rw [net_profit_scenario]; norm_num)

/-- C9: totals_from_monthly is the plain 12-bucket sums, the adjusted
balance is startingBalance + (totalCredit - totalDebit), and
adjustedBalance(100, 500, 300) = -100. -/
theorem totals_and_adjusted_balance (d c : List ℚ) (sb td tc : ℚ) :
    totals_from_monthly d c = (d.sum, c.sum) ∧
    adjusted_balance sb td tc = sb + (tc - td) ∧
    adjusted_balance 100 500 300 = -100 := by
  refine ⟨rfl, rfl, ?_⟩
  norm_num [adjusted_balance]

/-- C4: sell_vehicle on an id with no in-stock match reports notFound and
returns the store unchanged: no sale appended, no vehicle removed, no
counter incremented. -/
theorem sell_vehicle_not_found_no_change (s : StoreState) (vid : Nat) (c : String)
    (p : ℚ) (d : String) (h : find_vehicle_by_id s vid = none) :
    sell_vehicle s vid c p d = (s, SellResult.notFound) := by
  unfold sell_vehicle
  rw [h]

/-- Witness for C4: selling id 1 from the empty initial store. -/
theorem sell_vehicle_not_found_no_change_witness :
    find_vehicle_by_id init_state 1 = none ∧
    sell_vehicle init_state 1 "Bob" 5 "2025-01-01T00:00:00" = (init_state, SellResult.notFound) :=
  ⟨by decide, sell_vehicle_not_found_no_change init_state 1 "Bob" 5 "2025-01-01T00:00:00" (by decide)⟩

/-! ### Inventory lemmas -/

lemma find_some_mem (s : StoreState) (vid : Nat) (v : Vehicle)
    (h : find_vehicle_by_id s vid = some v) : v ∈ s.inventory ∧ v.id = vid := by
  unfold find_vehicle_by_id at h
  refine ⟨List.mem_of_find?_eq_some h, ?_⟩
  have := List.find?_some h
  simpa using this

lemma find_none_iff (s : StoreState) (vid : Nat) :
    find_vehicle_by_id s vid = none ↔ ∀ v ∈ s.inventory, v.id ≠ vid := by
  unfold find_vehicle_by_id
  rw [List.find?_eq_none]
  simp

lemma removeFirst_true_of_mem (l : List Vehicle) (vid : Nat) (v : Vehicle)
    (hv : v ∈ l) (hid : v.id = vid) : (removeFirst l vid).2 = true := by
  induction l with
  | nil => simp at hv
  | cons a rest ih =>
    by_cases h : a.id = vid
    · simp [removeFirst, h]
    · rcases List.mem_cons.mp hv with rfl | hv2
      · exact absurd hid h
      · simp [removeFirst, h, ih hv2]

lemma removeFirst_sublist (l : List Vehicle) (vid : Nat) : List.Sublist (removeFirst l vid).1 l := by
  induction l with
  | nil => simp [removeFirst]
  | cons a rest ih =>
    by_cases h : a.id = vid
    · simp only [removeFirst, h, if_true]
      exact List.sublist_cons_self a rest
    · simp only [removeFirst, h, if_false]
      exact List.Sublist.cons₂ a ih

lemma removeFirst_not_mem_of_pairwise (l : List Vehicle) (vid : Nat)
    (hp : l.Pairwise (fun a b => a.id ≠ b.id)) :
    ∀ v ∈ (removeFirst l vid).1, v.id ≠ vid := by
  induction l with
  | nil => simp [removeFirst]
  | cons a rest ih =>
    obtain ⟨ha, hrest⟩ := List.pairwise_cons.mp hp
    by_cases h : a.id = vid
    · intro v hv
      simp only [removeFirst, h, if_true] at hv
      intro hvid
      exact (ha v hv) (by rw [h, hvid])
    · intro v hv
      simp only [removeFirst, h, if_false, List.mem_cons] at hv
      rcases hv with rfl | hv2
      · exact h
      · exact ih hrest v hv2

lemma sell_vehicle_state_of_found (s : StoreState) (vid : Nat) (c : String) (p : ℚ)
    (d : String) (v : Vehicle) (hv : find_vehicle_by_id s vid = some v) :
    (sell_vehicle s vid c p d).1 =
      { s with
        sales := s.sales ++ [{ sale_id := s.next_sale_id, vehicle_id := vid,
                               customer_name := pyStrip c, sale_price := p, date := d }]
        inventory := (removeFirst s.inventory vid).1
        next_sale_id := s.next_sale_id + 1 } ∧
    (sell_vehicle s vid c p d).2 = SellResult.sold s.next_sale_id := by
  obtain ⟨hmem, hid⟩ := find_some_mem s vid v hv
  have hrem : (removeFirst s.inventory vid).2 = true :=
    removeFirst_true_of_mem s.inventory vid v hmem hid
  unfold sell_vehicle
  rw [hv]
  unfold sell_vehicle_after_commit remove_vehicle_by_id
  simp [hrem]

/-! ### Store invariant over reachable states -/

/-- Inventory/sales consistency: all ids below the counter, in-stock ids
pairwise distinct, sold vehicle ids pairwise distinct, and no id both in
stock and sold. -/
def StoreInv (s : StoreState) : Prop :=
  (∀ v ∈ s.inventory, v.id < s.next_vehicle_id) ∧
  (∀ sl ∈ s.sales, sl.vehicle_id < s.next_vehicle_id) ∧
  s.inventory.Pairwise (fun a b => a.id ≠ b.id) ∧
  s.sales.Pairwise (fun a b => a.vehicle_id ≠ b.vehicle_id) ∧
  (∀ v ∈ s.inventory, ∀ sl ∈ s.sales, v.id ≠ sl.vehicle_id)

lemma StoreInv_init : StoreInv init_state := by
  refine ⟨?_, ?_, ?_, ?_, ?_⟩ <;> simp [init_state]

lemma StoreInv_add (s : StoreState) (b m : String) (y : Int) (pp esp : ℚ) (d : String)
    (h : StoreInv s) : StoreInv (add_vehicle s b m y pp esp d) := by
  obtain ⟨h1, h2, h3, h4, h5⟩ := h
  refine ⟨?_, ?_, ?_, ?_, ?_⟩
  · intro v hv
    simp only [add_vehicle, List.mem_cons] at hv ⊢
    rcases hv with rfl | hv2
    · simp
    · have := h1 v hv2
      omega
  · intro sl hsl
    simp only [add_vehicle]
    have := h2 sl hsl
    omega
  · simp only [add_vehicle, List.pairwise_cons]
    refine ⟨?_, h3⟩
    intro u hu
    have := h1 u hu
    simp
    omega
  · exact h4
  · intro v hv sl hsl
    simp only [add_vehicle, List.mem_cons] at hv
    rcases hv with rfl | hv2
    · have := h2 sl hsl
      simp
      omega
    · exact h5 v hv2 sl hsl

lemma StoreInv_sell (s : StoreState) (vid : Nat) (c : String) (p : ℚ) (d : String)
    (h : StoreInv s) : StoreInv (sell_vehicle s vid c p d).1 := by
  obtain ⟨h1, h2, h3, h4, h5⟩ := h
  cases hf : find_vehicle_by_id s vid with
  | none =>
    have : sell_vehicle s vid c p d = (s, SellResult.notFound) :=
      sell_vehicle_not_found_no_change s vid c p d hf
    rw [this]
    exact ⟨h1, h2, h3, h4, h5⟩
  | some v =>
    obtain ⟨hmem, hid⟩ := find_some_mem s vid v hf
    obtain ⟨hst, -⟩ := sell_vehicle_state_of_found s vid c p d v hf
    rw [hst]
    refine ⟨?_, ?_, ?_, ?_, ?_⟩
    · intro u hu
      exact h1 u ((removeFirst_sublist s.inventory vid).subset hu)
    · intro sl hsl
      rcases List.mem_append.mp hsl with hsl2 | hsl2
      · exact h2 sl hsl2
      · simp at hsl2
        subst hsl2
        simpa [← hid] using h1 v hmem
    · exact h3.sublist (removeFirst_sublist s.inventory vid)
    · rw [List.pairwise_append]
      refine ⟨h4, List.pairwise_singleton _ _, ?_⟩
      intro a ha bnew hbnew
      simp at hbnew
      subst hbnew
      intro hcontra
      exact (h5 v hmem a ha) (by rw [hid]; exact hcontra.symm)
    · intro u hu sl hsl
      rcases List.mem_append.mp hsl with hsl2 | hsl2
      · exact h5 u ((removeFirst_sublist s.inventory vid).subset hu) sl hsl2
      · simp at hsl2
        subst hsl2
        exact removeFirst_not_mem_of_pairwise s.inventory vid h3 u hu

lemma StoreInv_expense (s : StoreState) (ds : String) (a : ℚ) (d : String)
    (h : StoreInv s) : StoreInv (add_expense s ds a d) := by
  obtain ⟨h1, h2, h3, h4, h5⟩ := h
  exact ⟨h1, h2, h3, h4, h5⟩

lemma StoreInv_step (s : StoreState) (op : Op) (h : StoreInv s) : StoreInv (step s op) := by
  cases op with
  | addVehicle b m y pp esp d => exact StoreInv_add s b m y pp esp d h
  | sellVehicle vid c p d => exact StoreInv_sell s vid c p d h
  | addExpense ds a d => exact StoreInv_expense s ds a d h

lemma StoreInv_run (s : StoreState) (ops : List Op) (h : StoreInv s) :
    StoreInv (run s ops) := by
  induction ops generalizing s with
  | nil => exact h
  | cons op ops ih => exact ih (step s op) (StoreInv_step s op h)

lemma StoreInv_reachable (s : StoreState) (hs : Reachable s) : StoreInv s := by
  obtain ⟨ops, hops⟩ := hs
  rw [← hops]
  exact StoreInv_run init_state ops StoreInv_init

/-- A vehicle id strictly below the counter and absent from the
inventory: such an id can never re-enter the inventory. -/
def VidFree (s : StoreState) (vid : Nat) : Prop :=
  vid < s.next_vehicle_id ∧ ∀ v ∈ s.inventory, v.id ≠ vid

lemma VidFree_step (s : StoreState) (vid : Nat) (op : Op) (h : VidFree s vid) :
    VidFree (step s op) vid := by
  obtain ⟨hlt, hnm⟩ := h
  cases op with
  | addVehicle b m y pp esp d =>
    constructor
    · simp only [step, add_vehicle]
      omega
    · intro v hv
      simp only [step, add_vehicle, List.mem_cons] at hv
      rcases hv with rfl | hv2
      · simp
        omega
      · exact hnm v hv2
  | sellVehicle vid2 c p d =>
    cases hf : find_vehicle_by_id s vid2 with
    | none =>
      have heq : sell_vehicle s vid2 c p d = (s, SellResult.notFound) :=
        sell_vehicle_not_found_no_change s vid2 c p d hf
      simp only [step, heq]
      exact ⟨hlt, hnm⟩
    | some v =>
      obtain ⟨hst, -⟩ := sell_vehicle_state_of_found s vid2 c p d v hf
      simp only [step]
      rw [hst]
      exact ⟨hlt, fun u hu => hnm u ((removeFirst_sublist s.inventory vid2).subset hu)⟩
  | addExpense ds a d => exact ⟨hlt, hnm⟩

lemma VidFree_run (s : StoreState) (vid : Nat) (ops : List Op) (h : VidFree s vid) :
    VidFree (run s ops) vid := by
  induction ops generalizing s with
  | nil => exact h
  | cons op ops ih => exact ih (step s op) (VidFree_step s vid op h)

lemma find_none_of_VidFree (s : StoreState) (vid : Nat) (h : VidFree s vid) :
    find_vehicle_by_id s vid = none :=
  (find_none_iff s vid).mpr h.2

/-- C5: from any reachable store, a successful sale of vehicle vid leaves
a state where the sold-ids are pairwise distinct, no id is both in stock
and sold, the lookup of vid reports not-found, and the lookup still
reports not-found after any further operation sequence. -/
theorem sold_vehicle_never_reappears (s : StoreState) (hs : Reachable s)
    (vid : Nat) (c : String) (p : ℚ) (d : String) (sid : Nat)
    (hsold : (sell_vehicle s vid c p d).2 = SellResult.sold sid) :
    (sell_vehicle s vid c p d).1.sales.Pairwise (fun a b => a.vehicle_id ≠ b.vehicle_id) ∧
    (∀ v ∈ (sell_vehicle s vid c p d).1.inventory,
       ∀ sl ∈ (sell_vehicle s vid c p d).1.sales, v.id ≠ sl.vehicle_id) ∧
    find_vehicle_by_id (sell_vehicle s vid c p d).1 vid = none ∧
    (∀ ops : List Op, find_vehicle_by_id (run (sell_vehicle s vid c p d).1 ops) vid = none) := by
  have hInv := StoreInv_reachable s hs
  obtain ⟨h1, h2, h3, h4, h5⟩ := hInv
  have hInv2 := StoreInv_sell s vid c p d ⟨h1, h2, h3, h4, h5⟩
  cases hf : find_vehicle_by_id s vid with
  | none =>
    have heq : sell_vehicle s vid c p d = (s, SellResult.notFound) :=
      sell_vehicle_not_found_no_change s vid c p d hf
    rw [heq] at hsold
    exact absurd hsold (by simp)
  | some v =>
    obtain ⟨hmem, hid⟩ := find_some_mem s vid v hf
    obtain ⟨hst, -⟩ := sell_vehicle_state_of_found s vid c p d v hf
    have hfree : VidFree (sell_vehicle s vid c p d).1 vid := by
      rw [hst]
      constructor
      · show vid < s.next_vehicle_id
        have := h1 v hmem
        omega
      · exact removeFirst_not_mem_of_pairwise s.inventory vid h3
    refine ⟨hInv2.2.2.2.1, hInv2.2.2.2.2, find_none_of_VidFree _ vid hfree, ?_⟩
    intro ops
    exact find_none_of_VidFree _ vid (VidFree_run _ vid ops hfree)

/-- Witness for C5: add one vehicle to the empty store, sell it, and
check the sold id is gone, also after a further expense operation. -/
theorem sold_vehicle_never_reappears_witness :
    Reachable (run init_state [Op.addVehicle "Toyota" "Corolla" 2020 100 200 "2024-01-05T00:00:00"]) ∧
    (sell_vehicle (run init_state [Op.addVehicle "Toyota" "Corolla" 2020 100 200 "2024-01-05T00:00:00"])
        1 "Alice" 150 "2024-02-05T00:00:00").2 = SellResult.sold 1 ∧
    ((sell_vehicle (run init_state [Op.addVehicle "Toyota" "Corolla" 2020 100 200 "2024-01-05T00:00:00"])
        1 "Alice" 150 "2024-02-05T00:00:00").1.sales.Pairwise (fun a b => a.vehicle_id ≠ b.vehicle_id) ∧
    (∀ v ∈ (sell_vehicle (run init_state [Op.addVehicle "Toyota" "Corolla" 2020 100 200 "2024-01-05T00:00:00"])
        1 "Alice" 150 "2024-02-05T00:00:00").1.inventory,
       ∀ sl ∈ (sell_vehicle (run init_state [Op.addVehicle "Toyota" "Corolla" 2020 100 200 "2024-01-05T00:00:00"])
        1 "Alice" 150 "2024-02-05T00:00:00").1.sales, v.id ≠ sl.vehicle_id) ∧
    find_vehicle_by_id (sell_vehicle (run init_state [Op.addVehicle "Toyota" "Corolla" 2020 100 200 "2024-01-05T00:00:00"])
        1 "Alice" 150 "2024-02-05T00:00:00").1 1 = none ∧
    (∀ ops : List Op, find_vehicle_by_id
        (run (sell_vehicle (run init_state [Op.addVehicle "Toyota" "Corolla" 2020 100 200 "2024-01-05T00:00:00"])
          1 "Alice" 150 "2024-02-05T00:00:00").1 ops) 1 = none)) :=
  ⟨⟨[Op.addVehicle "Toyota" "Corolla" 2020 100 200 "2024-01-05T00:00:00"], rfl⟩,
   by decide,
   sold_vehicle_never_reappears _
     ⟨[Op.addVehicle "Toyota" "Corolla" 2020 100 200 "2024-01-05T00:00:00"], rfl⟩
     1 "Alice" 150 "2024-02-05T00:00:00" 1 (by decide)⟩

/-! ### Identifier counters -/

lemma step_next_vehicle_id_mono (s : StoreState) (op : Op) :
    s.next_vehicle_id ≤ (step s op).next_vehicle_id := by
  cases op with
  | addVehicle b m y pp esp d =>
    simp only [step, add_vehicle]
    omega
  | sellVehicle vid c p d =>
    cases hf : find_vehicle_by_id s vid with
    | none =>
      have heq : sell_vehicle s vid c p d = (s, SellResult.notFound) :=
        sell_vehicle_not_found_no_change s vid c p d hf
      simp only [step, heq]
      exact Nat.le_refl _
    | some v =>
      obtain ⟨hst, -⟩ := sell_vehicle_state_of_found s vid c p d v hf
      simp only [step]
      rw [hst]
  | addExpense ds a d => exact Nat.le_refl _

lemma traceVehicleIds_lb (s : StoreState) (ops : List Op) :
    ∀ i ∈ traceVehicleIds s ops, s.next_vehicle_id ≤ i := by
  induction ops generalizing s with
  | nil => simp [traceVehicleIds]
  | cons op ops ih =>
    intro i hi
    have hmono := step_next_vehicle_id_mono s op
    cases op with
    | addVehicle b m y pp esp d =>
      simp only [traceVehicleIds, List.mem_cons] at hi
      rcases hi with rfl | hi2
      · exact Nat.le_refl _
      · have := ih (step s (Op.addVehicle b m y pp esp d)) i hi2
        omega
    | sellVehicle vid c p d =>
      simp only [traceVehicleIds] at hi
      have := ih (step s (Op.sellVehicle vid c p d)) i hi
      omega
    | addExpense ds a d =>
      simp only [traceVehicleIds] at hi
      have := ih (step s (Op.addExpense ds a d)) i hi
      omega

lemma traceVehicleIds_pairwise (s : StoreState) (ops : List Op) :
    (traceVehicleIds s ops).Pairwise (fun a b => a < b) := by
  induction ops generalizing s with
  | nil => simp [traceVehicleIds]
  | cons op ops ih =>
    cases op with
    | addVehicle b m y pp esp d =>
      simp only [traceVehicleIds, List.pairwise_cons]
      refine ⟨?_, ih (step s (Op.addVehicle b m y pp esp d))⟩
      intro i hi
      have hlb := traceVehicleIds_lb (step s (Op.addVehicle b m y pp esp d)) ops i hi
      simp only [step, add_vehicle] at hlb
      omega
    | sellVehicle vid c p d =>
      simp only [traceVehicleIds]
      exact ih (step s (Op.sellVehicle vid c p d))
    | addExpense ds a d =>
      simp only [traceVehicleIds]
      exact ih (step s (Op.addExpense ds a d))

/-- C6: the three identifier counters start at 1 in init_state, and the
vehicle identifiers assigned along any operation sequence (each
addVehicle hands out the current next_vehicle_id) are strictly
increasing, hence unique and never reused, even when vehicles are
removed by intervening sellVehicle operations. -/
theorem vehicle_ids_strictly_increasing (s : StoreState) (ops : List Op) :
    init_state.next_vehicle_id = 1 ∧
    init_state.next_sale_id = 1 ∧
    init_state.next_expense_id = 1 ∧
    (traceVehicleIds s ops).Pairwise (fun a b => a < b) ∧
    (traceVehicleIds s ops).Nodup := by
  refine ⟨rfl, rfl, rfl, traceVehicleIds_pairwise s ops, ?_⟩
  exact (traceVehicleIds_pairwise s ops).imp Nat.ne_of_lt

/-! ### Cumulative purchase cost -/

lemma cost_inv_step (s : StoreState) (op : Op)
    (h : s.cumulative_purchase_cost = (s.purchase_history.map (fun p => p.amount)).sum) :
    (step s op).cumulative_purchase_cost
      = ((step s op).purchase_history.map (fun p => p.amount)).sum := by
  cases op with
  | addVehicle b m y pp esp d =>
    simp only [step, add_vehicle]
    simp [h]
  | sellVehicle vid c p d =>
    cases hf : find_vehicle_by_id s vid with
    | none =>
      have heq : sell_vehicle s vid c p d = (s, SellResult.notFound) :=
        sell_vehicle_not_found_no_change s vid c p d hf
      simp only [step, heq]
      exact h
    | some v =>
      obtain ⟨hst, -⟩ := sell_vehicle_state_of_found s vid c p d v hf
      simp only [step]
      rw [hst]
      exact h
  | addExpense ds a d => exact h

lemma cost_inv_run (s : StoreState) (ops : List Op)
    (h : s.cumulative_purchase_cost = (s.purchase_history.map (fun p => p.amount)).sum) :
    (run s ops).cumulative_purchase_cost
      = ((run s ops).purchase_history.map (fun p => p.amount)).sum := by
  induction ops generalizing s with
  | nil => exact h
  | cons op ops ih => exact ih (step s op) (cost_inv_step s op h)

/-- C10: in every reachable state, cumulative_purchase_cost equals the
sum of the purchase-history amounts, and every single operation
preserves that equality. -/
theorem cumulative_cost_matches_history (s : StoreState) (hs : Reachable s) (op : Op) :
    s.cumulative_purchase_cost = (s.purchase_history.map (fun p => p.amount)).sum ∧
    (step s op).cumulative_purchase_cost
      = ((step s op).purchase_history.map (fun p => p.amount)).sum := by
  obtain ⟨ops, hops⟩ := hs
  have hbase : s.cumulative_purchase_cost
      = (s.purchase_history.map (fun p => p.amount)).sum := by
    rw [← hops]
    exact cost_inv_run init_state ops (by simp [init_state])
  exact ⟨hbase, cost_inv_step s op hbase⟩

/-- Witness for C10 at the store reached by one addVehicle, with a
further addExpense step. -/
theorem cumulative_cost_matches_history_witness :
    Reachable (run init_state [Op.addVehicle "Toyota" "Corolla" 2020 100 200 "2024-01-05T00:00:00"]) ∧
    ((run init_state [Op.addVehicle "Toyota" "Corolla" 2020 100 200 "2024-01-05T00:00:00"]).cumulative_purchase_cost
      = ((run init_state [Op.addVehicle "Toyota" "Corolla" 2020 100 200 "2024-01-05T00:00:00"]).purchase_history.map
          (fun p => p.amount)).sum ∧
    (step (run init_state [Op.addVehicle "Toyota" "Corolla" 2020 100 200 "2024-01-05T00:00:00"])
        (Op.addExpense "wax" 3 "2024-01-06T00:00:00")).cumulative_purchase_cost
      = ((step (run init_state [Op.addVehicle "Toyota" "Corolla" 2020 100 200 "2024-01-05T00:00:00"])
          (Op.addExpense "wax" 3 "2024-01-06T00:00:00")).purchase_history.map
            (fun p => p.amount)).sum) :=
  ⟨⟨[Op.addVehicle "Toyota" "Corolla" 2020 100 200 "2024-01-05T00:00:00"], rfl⟩,
   cumulative_cost_matches_history _
     ⟨[Op.addVehicle "Toyota" "Corolla" 2020 100 200 "2024-01-05T00:00:00"], rfl⟩
     (Op.addExpense "wax" 3 "2024-01-06T00:00:00")⟩

/-! ### The sell_vehicle removal-failure branch -/

lemma sell_never_removalFailed (s : StoreState) (vid : Nat) (c : String) (p : ℚ) (d : String) :
    (sell_vehicle s vid c p d).2 ≠ SellResult.removalFailed := by
  cases hf : find_vehicle_by_id s vid with
  | none =>
    rw [sell_vehicle_not_found_no_change s vid c p d hf]
    simp
  | some v =>
    obtain ⟨-, h2⟩ := sell_vehicle_state_of_found s vid c p d v hf
    rw [h2]
    simp

/-- A store as the code would see it inside sell_vehicle right after the
sale commit if the vehicle were already gone: the sale for vehicle 1 is
in the ledger, the inventory does not hold vehicle 1, and next_sale_id
has not yet been bumped. -/
def committedState : StoreState :=
  { inventory := []
    sales := [{ sale_id := 3, vehicle_id := 1, customer_name := "Ghost", sale_price := 5,
                date := "2025-01-01T00:00:00" }]
    expenses := []
    purchase_history := []
    next_vehicle_id := 2
    next_sale_id := 3
    next_expense_id := 1
    cumulative_purchase_cost := 0 }

/-- C3: the removal-failure branch of sell_vehicle.  First, the branch is
unreachable through sell_vehicle itself (a found vehicle is always
removable).  Second, the branch code (sell_vehicle_after_commit with the
removal reporting failure) returns normally with the non-fatal
removalFailed outcome, keeping the committed sale in the ledger and
leaving next_sale_id unincremented - it does not raise a fatal
internal-consistency error. -/
theorem removal_failure_branch_nonfatal :
    (∀ (s : StoreState) (vid : Nat) (c : String) (p : ℚ) (d : String),
       (sell_vehicle s vid c p d).2 ≠ SellResult.removalFailed) ∧
    (sell_vehicle_after_commit committedState 1 3).2 = SellResult.removalFailed ∧
    (sell_vehicle_after_commit committedState 1 3).1 = committedState ∧
    (sell_vehicle_after_commit committedState 1 3).1.sales
      = [{ sale_id := 3, vehicle_id := 1, customer_name := "Ghost", sale_price := 5,
           date := "2025-01-01T00:00:00" }] ∧
    (sell_vehicle_after_commit committedState 1 3).1.next_sale_id = 3 := by
  refine ⟨sell_never_removalFailed, by decide, by decide, by decide, by decide⟩

/-! ### Clock dependence of the aggregation -/

/-- A store holding one sale whose date string is empty and hence fails
to parse. -/
def unparseableSaleState : StoreState :=
  { inventory := []
    sales := [{ sale_id := 1, vehicle_id := 1, customer_name := "A", sale_price := 100,
                date := "" }]
    expenses := []
    purchase_history := []
    next_vehicle_id := 2
    next_sale_id := 2
    next_expense_id := 1
    cumulative_purchase_cost := 0 }

/-- Counterexample for C7: with an unparseable sale date, two calls of
monthly_aggregation_for_year on the same unmutated store but under
different current times (January versus February 2024) return different
credit arrays, because the parse fallback buckets the sale at the
current month of each call. -/
theorem monthly_aggregation_clock_dependent :
    monthly_aggregation_for_year unparseableSaleState (2024, 1) 2024
      ≠ monthly_aggregation_for_year unparseableSaleState (2024, 2) 2024 := by
  norm_num [monthly_aggregation_for_year, unparseableSaleState, bucketFold,
    month_key_from_iso, parseYearMonth, bump, List.replicate]

/-- True when every date string stored in s parses. -/
def allDatesParse (s : StoreState) : Bool :=
  s.sales.all (fun sl => (parseYearMonth sl.date).isSome) &&
  s.expenses.all (fun e => (parseYearMonth e.date).isSome) &&
  s.purchase_history.all (fun p => (parseYearMonth p.date).isSome)

lemma bucketFold_congr {α : Type} (key1 key2 : α → Int × Nat) (val : α → ℚ) (year : Int)
    (acc : List ℚ) (rs : List α) (h : ∀ r ∈ rs, key1 r = key2 r) :
    bucketFold key1 val year acc rs = bucketFold key2 val year acc rs := by
  induction rs generalizing acc with
  | nil => rfl
  | cons r rest ih =>
    rw [bucketFold_cons, bucketFold_cons, h r (by simp)]
    exact ih _ (fun x hx => h x (by simp [hx]))

lemma month_key_parse_independent (now1 now2 : Int × Nat) (d : String)
    (h : (parseYearMonth d).isSome = true) :
    month_key_from_iso now1 d = month_key_from_iso now2 d := by
  unfold month_key_from_iso
  cases hp : parseYearMonth d with
  | none => rw [hp] at h; exact absurd h (by simp)
  | some ym => rfl

/-- C7 amended: when every stored date string parses, the aggregation is
a pure function of the store alone - two calls under arbitrary (possibly
different) current times return identical debit and credit arrays.  (The
unamended claim fails when a date does not parse, see the
counterexample.) -/
theorem monthly_aggregation_pure_when_dates_parse (s : StoreState)
    (now1 now2 : Int × Nat) (year : Int) (h : allDatesParse s = true) :
    monthly_aggregation_for_year s now1 year = monthly_aggregation_for_year s now2 year := by
  unfold allDatesParse at h
  simp only [Bool.and_eq_true, List.all_eq_true] at h
  obtain ⟨⟨hs, he⟩, hp⟩ := h
  unfold monthly_aggregation_for_year
  have hcredit := bucketFold_congr (fun sl => month_key_from_iso now1 sl.date)
    (fun sl => month_key_from_iso now2 sl.date) (fun sl => sl.sale_price) year
    (List.replicate 12 0) s.sales
    (fun r hr => month_key_parse_independent now1 now2 r.date (by simpa using hs r hr))
  have hexp := bucketFold_congr (fun e => month_key_from_iso now1 e.date)
    (fun e => month_key_from_iso now2 e.date) (fun e => e.amount) year
    (List.replicate 12 0) s.expenses
    (fun r hr => month_key_parse_independent now1 now2 r.date (by simpa using he r hr))
  have hdeb : bucketFold (fun p => month_key_from_iso now1 p.date) (fun p => p.amount) year
      (bucketFold (fun e => month_key_from_iso now1 e.date) (fun e => e.amount) year
        (List.replicate 12 0) s.expenses) s.purchase_history
    = bucketFold (fun p => month_key_from_iso now2 p.date) (fun p => p.amount) year
      (bucketFold (fun e => month_key_from_iso now2 e.date) (fun e => e.amount) year
        (List.replicate 12 0) s.expenses) s.purchase_history := by
    rw [hexp]
    exact bucketFold_congr (fun p => month_key_from_iso now1 p.date)
      (fun p => month_key_from_iso now2 p.date) (fun p => p.amount) year _ s.purchase_history
      (fun r hr => month_key_parse_independent now1 now2 r.date (by simpa using hp r hr))
  show (bucketFold (fun p => month_key_from_iso now1 p.date) (fun p => p.amount) year
      (bucketFold (fun e => month_key_from_iso now1 e.date) (fun e => e.amount) year
        (List.replicate 12 0) s.expenses) s.purchase_history,
    bucketFold (fun sl => month_key_from_iso now1 sl.date) (fun sl => sl.sale_price) year
      (List.replicate 12 0) s.sales)
    = (bucketFold (fun p => month_key_from_iso now2 p.date) (fun p => p.amount) year
      (bucketFold (fun e => month_key_from_iso now2 e.date) (fun e => e.amount) year
        (List.replicate 12 0) s.expenses) s.purchase_history,
    bucketFold (fun sl => month_key_from_iso now2 sl.date) (fun sl => sl.sale_price) year
      (List.replicate 12 0) s.sales)
  rw [hdeb, hcredit]

/-- Witness for C7 amended: the all-parsing store wState under two
different clocks. -/
theorem monthly_aggregation_pure_when_dates_parse_witness :
    allDatesParse wState = true ∧
    monthly_aggregation_for_year wState (2024, 1) 2024
      = monthly_aggregation_for_year wState (2026, 7) 2024 :=
  ⟨by decide, monthly_aggregation_pure_when_dates_parse wState (2024, 1) (2026, 7) 2024 (by decide)⟩

/-! ### Input validation on the form pages -/

/-- Counterexample for C8: a whitespace-only brand (which the stored,
trimmed field turns into the empty string) passes the page validation
(Python tests only the raw string for falsiness), so the add proceeds:
a vehicle with empty stored brand is created, the counter is
incremented, and a purchase event is recorded. -/
theorem whitespace_brand_passes_validation :
    pyStrip " " = "" ∧
    page_add_vehicle_submit init_state " " "Corolla" 2020 100 200 "2024-01-05T00:00:00"
      ≠ init_state ∧
    (page_add_vehicle_submit init_state " " "Corolla" 2020 100 200 "2024-01-05T00:00:00").next_vehicle_id
      = 2 ∧
    ((page_add_vehicle_submit init_state " " "Corolla" 2020 100 200 "2024-01-05T00:00:00").inventory.map
        (fun v => v.brand)) = [""] ∧
    (page_add_vehicle_submit init_state " " "Corolla" 2020 100 200 "2024-01-05T00:00:00").purchase_history
      = [{ amount := 100, date := "2024-01-05T00:00:00" }] := by
  refine ⟨by decide, by decide, by decide, by decide, by decide⟩

/-- C8 amended: the pages reject exactly an empty raw input string (the
Python falsiness test), before any mutation: an empty brand or model, an
empty customer name, or an empty description leaves the store untouched
- no record, no counter bump, no purchase event.  (Whitespace-only text
passes the check and is stored stripped to empty, see the
counterexample.) -/
theorem empty_raw_input_rejected_before_mutation (s : StoreState)
    (brand model : String) (year : Int) (pp esp : ℚ)
    (vid : Nat) (customer : String) (price : ℚ)
    (description : String) (amount : ℚ) (d : String)
    (hb : brand = "" ∨ model = "") (hc : customer = "") (hd : description = "") :
    page_add_vehicle_submit s brand model year pp esp d = s ∧
    page_sell_vehicle_submit s vid customer price d = s ∧
    page_expenses_submit s description amount d = s := by
  refine ⟨?_, ?_, ?_⟩
  · unfold page_add_vehicle_submit
    rw [if_pos hb]
  · unfold page_sell_vehicle_submit
    rw [if_pos hc]
  · unfold page_expenses_submit
    rw [if_pos hd]

/-- Witness for C8 amended: empty brand, customer and description
against the wState store. -/
theorem empty_raw_input_rejected_before_mutation_witness :
    ("" = "" ∨ "Corolla" = "") ∧
    (page_add_vehicle_submit wState "" "Corolla" 2020 100 200 "2024-01-05T00:00:00" = wState ∧
     page_sell_vehicle_submit wState 1 "" 50 "2024-01-05T00:00:00" = wState ∧
     page_expenses_submit wState "" 9 "2024-01-05T00:00:00" = wState) :=
  ⟨Or.inl rfl,
   empty_raw_input_rejected_before_mutation wState "" "Corolla" 2020 100 200 1 "" 50 "" 9
     "2024-01-05T00:00:00" (Or.inl rfl) rfl rfl⟩
